import Mathlib

/-!
Shallow embedding of `pkg/stub/k8s/k8s.go` from the nginx-operator
repository, together with the parts of the `v1alpha1` API types package
that the builders use (that package is not part of the sources at hand,
so its types are modelled from the specification document).

Go `map[string]string` values are modelled as association lists; the
string stored in an annotation is modelled by the JSON tree it denotes
(`Json.str` for plain text such as an inline configuration value,
`Json.obj ...` for the serialized spec), so `encoding/json` marshalling
and unmarshalling are embedded at the JSON-tree level: `json.Marshal`
becomes a total encoder into `Json` and `json.Unmarshal` a decoder
`Json → Except String _` that fails exactly on trees that do not match
the target struct.
-/

set_option autoImplicit false

mutual

/-- A JSON document tree, the codomain of the embedded `json.Marshal`. -/
inductive Json where
  | null : Json
  | str : String → Json
  | num : Int → Json
  | obj : JsonFields → Json
  | arr : JsonList → Json
deriving DecidableEq, Repr

/-- The field list of a JSON object. -/
inductive JsonFields where
  | nil : JsonFields
  | cons : String → Json → JsonFields → JsonFields
deriving DecidableEq, Repr

/-- The element list of a JSON array. -/
inductive JsonList where
  | nil : JsonList
  | cons : Json → JsonList → JsonList
deriving DecidableEq, Repr

end

/-- Lookup of a field in a JSON object, the model of how
`json.Unmarshal` matches an object member to a struct field. -/
def JsonFields.find : JsonFields → String → Option Json
  | .nil, _ => none
  | .cons k v rest, k2 => if k = k2 then some v else JsonFields.find rest k2

/-- Lookup in an association list, the model of Go map indexing `m[k]`. -/
def lookupAssoc {α : Type} : List (String × α) → String → Option α
  | [], _ => none
  | (k2, v) :: rest, k => if k2 = k then some v else lookupAssoc rest k

/-- Update/insert in an association list, the model of Go map assignment
`m[k] = v`. -/
def insertAssoc {α : Type} : List (String × α) → String → α → List (String × α)
  | [], k, v => [(k, v)]
  | (k2, v2) :: rest, k, v =>
    if k2 = k then (k2, v) :: rest else (k2, v2) :: insertAssoc rest k v

/-- Modelled from the spec: `v1alpha1.TLSSecret` (secret name; key field
name; certificate field name; key mount path; certificate mount path). -/
structure TLSSecret where
  secretName : String
  keyField : String
  certificateField : String
  keyPath : String
  certificatePath : String
deriving DecidableEq, Repr

/-- Modelled from the spec: `v1alpha1.ConfigRef` (kind; name; value). -/
structure ConfigRef where
  kind : String
  name : String
  value : String
deriving DecidableEq, Repr

/-- Modelled from the spec: the config-store-reference kind constant
`v1alpha1.ConfigKindConfigMap`. -/
def ConfigKindConfigMap : String := "ConfigMap"

/-- Modelled from the spec: the inline kind constant
`v1alpha1.ConfigKindInline`. -/
def ConfigKindInline : String := "Inline"

/-- Modelled from the spec: the pod-template overrides (resource
limits/requests and affinity rules are opaque structured data passed
through unmodified, embedded here as an opaque string and an optional
opaque string). -/
structure NginxPodTemplateSpec where
  resources : String
  affinity : Option String
deriving DecidableEq, Repr

/-- Modelled from the spec: `v1alpha1.NginxSpec` (container image,
nullable replica count, pod-template overrides, optional ConfigRef,
optional TLSSecret). -/
structure NginxSpec where
  image : String
  replicas : Option Int
  podTemplate : NginxPodTemplateSpec
  config : Option ConfigRef
  tlsSecret : Option TLSSecret
deriving DecidableEq, Repr

/-- Modelled from the spec: the `v1alpha1.Nginx` custom resource: an
identity (name, namespace, uid) plus the spec. -/
structure Nginx where
  name : String
  ns : String
  uid : String
  spec : NginxSpec
deriving DecidableEq, Repr

/-- `metav1.OwnerReference` as produced by `metav1.NewControllerRef`. -/
structure OwnerReference where
  apiVersion : String
  kind : String
  name : String
  uid : String
  controller : Bool
  blockOwnerDeletion : Bool
deriving DecidableEq, Repr

/-- The fields of `metav1.ObjectMeta` the builders touch. -/
structure ObjectMeta where
  name : String := ""
  ns : String := ""
  ownerReferences : List OwnerReference := []
  labels : List (String × String) := []
  annotations : List (String × Json) := []
deriving DecidableEq, Repr

/-- `intstr.IntOrString`. -/
inductive IntOrString where
  | fromString : String → IntOrString
  | fromInt : Int → IntOrString
deriving DecidableEq, Repr

/-- `corev1.ContainerPort`. -/
structure ContainerPort where
  name : String
  containerPort : Int
  protocol : String
deriving DecidableEq, Repr

/-- `corev1.HTTPGetAction`. -/
structure HTTPGetAction where
  path : String
  port : IntOrString
  scheme : String
deriving DecidableEq, Repr

/-- `corev1.Probe` (only the HTTPGet handler is used). -/
structure Probe where
  httpGet : Option HTTPGetAction
deriving DecidableEq, Repr

/-- `corev1.VolumeMount`. -/
structure VolumeMount where
  name : String
  mountPath : String
deriving DecidableEq, Repr

/-- `corev1.KeyToPath`. -/
structure KeyToPath where
  key : String
  path : String
deriving DecidableEq, Repr

/-- `corev1.DownwardAPIVolumeFile` (path and field selector path). -/
structure DownwardAPIVolumeFile where
  path : String
  fieldPath : String
deriving DecidableEq, Repr

/-- The `corev1.VolumeSource` variants used by the builders. -/
inductive VolumeSource where
  | configMap : String → VolumeSource
  | downwardAPI : List DownwardAPIVolumeFile → VolumeSource
  | secret : String → List KeyToPath → VolumeSource
deriving DecidableEq, Repr

/-- `corev1.Volume`. -/
structure Volume where
  name : String
  source : VolumeSource
deriving DecidableEq, Repr

/-- `corev1.Container` (resources are opaque pass-through data). -/
structure Container where
  name : String
  image : String
  ports : List ContainerPort
  resources : String
  readinessProbe : Option Probe
  volumeMounts : List VolumeMount
deriving DecidableEq, Repr

/-- `corev1.PodSpec` (containers, volumes, affinity pass-through). -/
structure PodSpec where
  containers : List Container
  volumes : List Volume
  affinity : Option String
deriving DecidableEq, Repr

/-- `corev1.PodTemplateSpec`. -/
structure PodTemplateSpec where
  meta : ObjectMeta
  spec : PodSpec
deriving DecidableEq, Repr

/-- `appv1.DeploymentSpec` (the selector is its MatchLabels map). -/
structure DeploymentSpec where
  replicas : Option Int
  selector : List (String × String)
  template : PodTemplateSpec
deriving DecidableEq, Repr

/-- `appv1.Deployment`. -/
structure Deployment where
  kind : String
  apiVersion : String
  objectMeta : ObjectMeta
  spec : DeploymentSpec
deriving DecidableEq, Repr

/-- `corev1.ServicePort`. -/
structure ServicePort where
  name : String
  protocol : String
  targetPort : IntOrString
  port : Int
deriving DecidableEq, Repr

/-- `corev1.ServiceSpec`. -/
structure ServiceSpec where
  ports : List ServicePort
  selector : List (String × String)
  serviceType : String
deriving DecidableEq, Repr

/-- `corev1.Service`. -/
structure Service where
  kind : String
  apiVersion : String
  objectMeta : ObjectMeta
  spec : ServiceSpec
deriving DecidableEq, Repr

/-- `defaultNginxImage`: default docker image used for nginx. -/
def defaultNginxImage : String := "nginx:latest"

/-- `defaultHTTPPortName`. -/
def defaultHTTPPortName : String := "http"

/-- `defaultHTTPSPortName`. -/
def defaultHTTPSPortName : String := "https"

/-- `configMountPath`: mount path where nginx.conf will be placed. -/
def configMountPath : String := "/etc/nginx"

/-- `certMountPath`: mount path where the certificate and key pair will
be placed. -/
def certMountPath : String := configMountPath ++ "/certs"

/-- `generatedFromAnnotation`: the annotation key used to store the
nginx spec that created the deployment. -/
def generatedFromKey : String := "nginx.tsuru.io/generated-from"

/-- A single-quote character as a string, used to build the downward-API
field selector path exactly as `fmt.Sprintf` does in `setupConfig`. -/
def singleQuote : String := String.singleton (Char.ofNat 39)

/-- `valueOrDefault` from `k8s.go`. -/
def valueOrDefault (value def2 : String) : String :=
  if value ≠ "" then value else def2

/-- `LabelsForNginx`: the labels for a Nginx CR with the given name. -/
def LabelsForNginx (name : String) : List (String × String) :=
  [("nginx_cr", name), ("app", "nginx")]

/-- `metav1.NewControllerRef` applied to a Nginx resource and the
`nginx.tsuru.io/v1alpha1` GroupVersionKind, as both builders do. -/
def newControllerRef (n : Nginx) : OwnerReference :=
  { apiVersion := "nginx.tsuru.io/v1alpha1"
    kind := "Nginx"
    name := n.name
    uid := n.uid
    controller := true
    blockOwnerDeletion := true }

/-- Helper embedding the Go in-place mutation
`dep.Spec.Template.Spec.Containers[0] = f(...)`. -/
def mapContainer0 (dep : Deployment) (f : Container → Container) : Deployment :=
  { dep with spec := { dep.spec with template := { dep.spec.template with
      spec := { dep.spec.template.spec with
        containers :=
          match dep.spec.template.spec.containers with
          | [] => []
          | c :: cs => f c :: cs } } } }

/-- Helper embedding `dep.Spec.Template.Spec.Volumes = append(..., v)`. -/
def addVolume (dep : Deployment) (v : Volume) : Deployment :=
  { dep with spec := { dep.spec with template := { dep.spec.template with
      spec := { dep.spec.template.spec with
        volumes := dep.spec.template.spec.volumes ++ [v] } } } }

/-- Helper embedding `dep.Spec.Template.Annotations[k] = v` (together
with the make-if-nil step). -/
def setTemplateAnn (dep : Deployment) (k : String) (v : Json) : Deployment :=
  { dep with spec := { dep.spec with template := { dep.spec.template with
      meta := { dep.spec.template.meta with
        annotations := insertAssoc dep.spec.template.meta.annotations k v } } } }

/-- `setupConfig` from `k8s.go`: a no-op on a nil ConfigRef; otherwise
appends the nginx-config volume mount and, depending on the kind, adds
a ConfigMap-sourced volume, or stores the inline value as a pod-template
annotation and adds a downward-API volume projecting it to nginx.conf. -/
def setupConfig : Option ConfigRef → Deployment → Deployment
  | none, dep => dep
  | some conf, dep =>
    let dep := mapContainer0 dep (fun c =>
      { c with volumeMounts := c.volumeMounts ++
          [{ name := "nginx-config", mountPath := configMountPath }] })
    if conf.kind = ConfigKindConfigMap then
      addVolume dep { name := "nginx-config", source := .configMap conf.name }
    else if conf.kind = ConfigKindInline then
      let dep := setTemplateAnn dep conf.name (.str conf.value)
      addVolume dep
        { name := "nginx-config"
          source := .downwardAPI
            [{ path := "nginx.conf"
               fieldPath := "metadata.annotations[" ++ singleQuote ++ conf.name
                 ++ singleQuote ++ "]" }] }
    else
      dep

/-- `setupTLS` from `k8s.go`: a no-op on a nil TLSSecret; otherwise
appends the https container port, replaces the readiness probe with an
HTTPS one, appends the nginx-certs mount, fills the secret field/path
defaults in place (returned as the first component, since the Go code
mutates the secret held by the caller), and adds a secret-sourced volume. -/
def setupTLS : Option TLSSecret → Deployment → Option TLSSecret × Deployment
  | none, dep => (none, dep)
  | some secret, dep =>
    let dep := mapContainer0 dep (fun c =>
      { c with ports := c.ports ++
          [{ name := defaultHTTPSPortName, containerPort := 443, protocol := "TCP" }] })
    let dep := mapContainer0 dep (fun c =>
      { c with readinessProbe := some ({ httpGet := some ({ path := "/", port := .fromString defaultHTTPSPortName, scheme := "HTTPS" } : HTTPGetAction) } : Probe) })
    let dep := mapContainer0 dep (fun c =>
      { c with volumeMounts := c.volumeMounts ++
          [{ name := "nginx-certs", mountPath := certMountPath }] })
    let secret := { secret with keyField := valueOrDefault secret.keyField "tls.key" }
    let secret := { secret with certificateField := valueOrDefault secret.certificateField "tls.crt" }
    let secret := { secret with keyPath := valueOrDefault secret.keyPath secret.keyField }
    let secret := { secret with certificatePath := valueOrDefault secret.certificatePath secret.certificateField }
    let dep := addVolume dep
      { name := "nginx-certs"
        source := .secret secret.secretName
          [{ key := secret.keyField, path := secret.keyPath },
           { key := secret.certificateField, path := secret.certificatePath }] }
    (some secret, dep)

/-- `NewService` from `k8s.go`: assembles the ClusterIP service, with a
second https port exactly when the TLS secret is set. -/
def NewService (n : Nginx) : Service :=
  let service : Service :=
    { kind := "Service"
      apiVersion := "v1"
      objectMeta :=
        { name := n.name ++ "-service"
          ns := n.ns
          ownerReferences := [newControllerRef n]
          labels := LabelsForNginx n.name }
      spec :=
        { ports :=
            [{ name := defaultHTTPPortName
               protocol := "TCP"
               targetPort := .fromString defaultHTTPPortName
               port := 80 }]
          selector := LabelsForNginx n.name
          serviceType := "ClusterIP" } }
  match n.spec.tlsSecret with
  | none => service
  | some _ =>
    { service with spec := { service.spec with ports := service.spec.ports ++
        [{ name := defaultHTTPSPortName
           protocol := "TCP"
           targetPort := .fromString defaultHTTPSPortName
           port := 443 }] } }

/-- Modelled from the spec: JSON encoding of a TLSSecret, mirroring the
struct field-for-field. -/
def encodeTLSSecret (t : TLSSecret) : Json :=
  .obj (.cons "secretName" (.str t.secretName)
       (.cons "keyField" (.str t.keyField)
       (.cons "certificateField" (.str t.certificateField)
       (.cons "keyPath" (.str t.keyPath)
       (.cons "certificatePath" (.str t.certificatePath) .nil)))))

/-- Modelled from the spec: JSON encoding of a ConfigRef, mirroring the
struct field-for-field. -/
def encodeConfigRef (c : ConfigRef) : Json :=
  .obj (.cons "kind" (.str c.kind)
       (.cons "name" (.str c.name)
       (.cons "value" (.str c.value) .nil)))

/-- Modelled from the spec: JSON encoding of the pod-template overrides
(opaque pass-through data). -/
def encodePodTemplate (p : NginxPodTemplateSpec) : Json :=
  .obj (.cons "resources" (.str p.resources)
       (.cons "affinity" (match p.affinity with | none => .null | some a => .str a) .nil))

/-- Modelled from the spec: `json.Marshal` on a NginxSpec, a total
encoder mirroring the struct field-for-field (marshalling of this struct
cannot fail in Go: every field type is marshalable). -/
def encodeNginxSpec (s : NginxSpec) : Json :=
  .obj (.cons "image" (.str s.image)
       (.cons "replicas" (match s.replicas with | none => .null | some k => .num k)
       (.cons "podTemplate" (encodePodTemplate s.podTemplate)
       (.cons "config" (match s.config with | none => .null | some c => encodeConfigRef c)
       (.cons "tlsSecret" (match s.tlsSecret with | none => .null | some t => encodeTLSSecret t) .nil)))))

/-- Unmarshalling of a string-typed struct field: a missing member or a
JSON null leaves the zero value, a string is taken verbatim, anything
else is a type error. -/
def decodeStringField : Option Json → Except String String
  | none => .ok ""
  | some .null => .ok ""
  | some (.str s) => .ok s
  | some _ => .error "cannot unmarshal value into a field of type string"

/-- Unmarshalling of the nullable replica count. -/
def decodeReplicasField : Option Json → Except String (Option Int)
  | none => .ok none
  | some .null => .ok none
  | some (.num k) => .ok (some k)
  | some _ => .error "cannot unmarshal value into a field of type *int32"

/-- Unmarshalling of the opaque affinity pass-through field. -/
def decodeAffinityField : Option Json → Except String (Option String)
  | none => .ok none
  | some .null => .ok none
  | some (.str s) => .ok (some s)
  | some _ => .error "cannot unmarshal value into the affinity field"

/-- Modelled from the spec: `json.Unmarshal` into a TLSSecret. -/
def decodeTLSSecret (j : Json) : Except String TLSSecret :=
  match j with
  | .obj fs => do
    let sn ← decodeStringField (fs.find "secretName")
    let kf ← decodeStringField (fs.find "keyField")
    let cf ← decodeStringField (fs.find "certificateField")
    let kp ← decodeStringField (fs.find "keyPath")
    let cp ← decodeStringField (fs.find "certificatePath")
    .ok { secretName := sn, keyField := kf, certificateField := cf,
          keyPath := kp, certificatePath := cp }
  | _ => .error "cannot unmarshal value into TLSSecret"

/-- Modelled from the spec: `json.Unmarshal` into a ConfigRef. -/
def decodeConfigRef (j : Json) : Except String ConfigRef :=
  match j with
  | .obj fs => do
    let k ← decodeStringField (fs.find "kind")
    let nm ← decodeStringField (fs.find "name")
    let v ← decodeStringField (fs.find "value")
    .ok { kind := k, name := nm, value := v }
  | _ => .error "cannot unmarshal value into ConfigRef"

/-- Unmarshalling of the pod-template overrides member. -/
def decodePodTemplateField : Option Json → Except String NginxPodTemplateSpec
  | none => .ok { resources := "", affinity := none }
  | some .null => .ok { resources := "", affinity := none }
  | some (.obj fs) => do
    let r ← decodeStringField (fs.find "resources")
    let a ← decodeAffinityField (fs.find "affinity")
    .ok { resources := r, affinity := a }
  | some _ => .error "cannot unmarshal value into NginxPodTemplateSpec"

/-- Unmarshalling of the nullable ConfigRef member. -/
def decodeConfigField : Option Json → Except String (Option ConfigRef)
  | none => .ok none
  | some .null => .ok none
  | some j => (decodeConfigRef j).map some

/-- Unmarshalling of the nullable TLSSecret member. -/
def decodeTLSField : Option Json → Except String (Option TLSSecret)
  | none => .ok none
  | some .null => .ok none
  | some j => (decodeTLSSecret j).map some

/-- Modelled from the spec: `json.Unmarshal` into a NginxSpec, failing
exactly on trees that do not match the struct. -/
def decodeNginxSpec (j : Json) : Except String NginxSpec :=
  match j with
  | .obj fs => do
    let i ← decodeStringField (fs.find "image")
    let r ← decodeReplicasField (fs.find "replicas")
    let p ← decodePodTemplateField (fs.find "podTemplate")
    let c ← decodeConfigField (fs.find "config")
    let t ← decodeTLSField (fs.find "tlsSecret")
    .ok { image := i, replicas := r, podTemplate := p, config := c, tlsSecret := t }
  | _ => .error "cannot unmarshal value into NginxSpec"

/-- `SetNginxSpec` from `k8s.go`: sets the nginx spec into the object
annotation to be later extracted. The Go code propagates a
`json.Marshal` error, but marshalling a NginxSpec is total (see
`encodeNginxSpec`), so the embedded function always returns `.ok`; the
`Except` shape of the Go signature is kept. -/
def SetNginxSpec (o : ObjectMeta) (spec : NginxSpec) : Except String ObjectMeta :=
  .ok { o with annotations := insertAssoc o.annotations generatedFromKey (encodeNginxSpec spec) }

/-- `ExtractNginxSpec` from `k8s.go`: extracts the nginx spec used to
create the object, with a distinct error for a missing annotation and a
distinct error for an annotation that fails to unmarshal. -/
def ExtractNginxSpec (o : ObjectMeta) : Except String NginxSpec :=
  match lookupAssoc o.annotations generatedFromKey with
  | none => .error ("missing \"" ++ generatedFromKey ++ "\" annotation in deployment")
  | some ann =>
    match decodeNginxSpec ann with
    | .error e => .error ("failed to unmarshal nginx from annotation: " ++ e)
    | .ok spec => .ok spec

/-- `NewDeployment` from `k8s.go`: creates a deployment for a given
Nginx resource. The Go function mutates `n.Spec` in place (the image
default on entry, the TLS field/path defaults inside `setupTLS`); the
embedding returns the mutated resource as the second component. -/
def NewDeployment (n : Nginx) : Except String (Deployment × Nginx) :=
  let n := { n with spec := { n.spec with image := valueOrDefault n.spec.image defaultNginxImage } }
  let deployment : Deployment :=
    { kind := "Deployment"
      apiVersion := "apps/v1"
      objectMeta :=
        { name := n.name ++ "-deployment"
          ns := n.ns
          ownerReferences := [newControllerRef n] }
      spec :=
        { replicas := n.spec.replicas
          selector := LabelsForNginx n.name
          template :=
            { meta :=
                { ns := n.ns
                  labels := LabelsForNginx n.name }
              spec :=
                { containers :=
                    [{ name := "nginx"
                       image := n.spec.image
                       ports :=
                         [{ name := defaultHTTPPortName
                            containerPort := 80
                            protocol := "TCP" }]
                       resources := n.spec.podTemplate.resources
                       readinessProbe := some ({ httpGet := some ({ path := "/", port := .fromString defaultHTTPPortName, scheme := "HTTP" } : HTTPGetAction) } : Probe)
                       volumeMounts := [] }]
                  volumes := []
                  affinity := n.spec.podTemplate.affinity } } } }
  let deployment := setupConfig n.spec.config deployment
  let res := setupTLS n.spec.tlsSecret deployment
  let deployment := res.2
  let n := { n with spec := { n.spec with tlsSecret := res.1 } }
  match SetNginxSpec deployment.objectMeta n.spec with
  | .error e => .error e
  | .ok meta => .ok ({ deployment with objectMeta := meta }, n)

deriving instance DecidableEq for Except

/-- The http container port literal used by `NewDeployment`. -/
def httpContainerPort : ContainerPort :=
  { name := defaultHTTPPortName, containerPort := 80, protocol := "TCP" }

/-- The https container port literal appended by `setupTLS`. -/
def httpsContainerPort : ContainerPort :=
  { name := defaultHTTPSPortName, containerPort := 443, protocol := "TCP" }

/-- The HTTP readiness probe installed by `NewDeployment`. -/
def httpProbeObj : Probe :=
  { httpGet := some { path := "/", port := .fromString defaultHTTPPortName, scheme := "HTTP" } }

/-- The HTTPS readiness probe installed by `setupTLS`. -/
def httpsProbeObj : Probe :=
  { httpGet := some { path := "/", port := .fromString defaultHTTPSPortName, scheme := "HTTPS" } }

/-- The nginx-config volume mount appended by `setupConfig`. -/
def nginxConfigMount : VolumeMount :=
  { name := "nginx-config", mountPath := configMountPath }

/-- The nginx-certs volume mount appended by `setupTLS`. -/
def nginxCertsMount : VolumeMount :=
  { name := "nginx-certs", mountPath := certMountPath }

/-- The http service port of `NewService`. -/
def httpServicePort : ServicePort :=
  { name := defaultHTTPPortName, protocol := "TCP",
    targetPort := .fromString defaultHTTPPortName, port := 80 }

/-- The https service port appended by `NewService` when TLS is set. -/
def httpsServicePort : ServicePort :=
  { name := defaultHTTPSPortName, protocol := "TCP",
    targetPort := .fromString defaultHTTPSPortName, port := 443 }

/-- The field/path defaulting that `setupTLS` applies to the TLS secret
(used to state what the mutated secret looks like). -/
def resolveTLS (s : TLSSecret) : TLSSecret :=
  let kf := valueOrDefault s.keyField "tls.key"
  let cf := valueOrDefault s.certificateField "tls.crt"
  { s with
    keyField := kf
    certificateField := cf
    keyPath := valueOrDefault s.keyPath kf
    certificatePath := valueOrDefault s.certificatePath cf }

/-- The (always reached) success value of `NewDeployment`. -/
def newDeploymentPair (n : Nginx) : Deployment × Nginx :=
  match NewDeployment n with
  | .ok p => p
  | .error _ =>
    ({ kind := "", apiVersion := "", objectMeta := {},
       spec := { replicas := none, selector := [],
                 template := { meta := {},
                               spec := { containers := [], volumes := [], affinity := none } } } }, n)

/-- `NewDeployment` always succeeds: the only fallible step is the
`json.Marshal` inside `SetNginxSpec`, which is total on a `NginxSpec`. -/
theorem newDeployment_eq (n : Nginx) : NewDeployment n = .ok (newDeploymentPair n) := rfl

/-- Looking up a key that was just written, as Go map assignment
followed by indexing does. -/
theorem lookupAssoc_insertAssoc {α : Type} (l : List (String × α)) (k : String) (v : α) :
    lookupAssoc (insertAssoc l k v) k = some v := by
  induction l with
  | nil => simp [insertAssoc, lookupAssoc]
  | cons hd tl ih =>
    obtain ⟨k2, v2⟩ := hd
    by_cases hk : k2 = k <;> simp [insertAssoc, lookupAssoc, hk, ih]

/-- The spec codec round trip at the JSON-tree level. -/
theorem decode_encode (s : NginxSpec) : decodeNginxSpec (encodeNginxSpec s) = .ok s := by
  obtain ⟨i, r, ⟨res, a⟩, c, t⟩ := s
  cases r <;> cases a <;> cases c <;> cases t <;> rfl

/-- Defaulting is idempotent: applying `valueOrDefault` with the same
default twice changes nothing further. -/
theorem valueOrDefault_idem (v d : String) :
    valueOrDefault (valueOrDefault v d) d = valueOrDefault v d := by
  unfold valueOrDefault
  by_cases hv : v = "" <;> by_cases hd : d = "" <;> simp [hv, hd]

/-- Defaulting with a non-empty default yields a non-empty value. -/
theorem valueOrDefault_ne_empty (v d : String) (hd : d ≠ "") :
    valueOrDefault v d ≠ "" := by
  unfold valueOrDefault
  by_cases hv : v = "" <;> simp [hv, hd]

/-- `setupConfig` leaves the deployment metadata untouched. -/
theorem setupConfig_objectMeta (c : Option ConfigRef) (d : Deployment) :
    (setupConfig c d).objectMeta = d.objectMeta := by
  cases c with
  | none => rfl
  | some conf =>
    simp only [setupConfig]
    split
    · simp [mapContainer0, addVolume]
    · split <;> simp [mapContainer0, addVolume, setTemplateAnn]

/-- `setupConfig` leaves the selector untouched. -/
theorem setupConfig_selector (c : Option ConfigRef) (d : Deployment) :
    (setupConfig c d).spec.selector = d.spec.selector := by
  cases c with
  | none => rfl
  | some conf =>
    simp only [setupConfig]
    split
    · simp [mapContainer0, addVolume]
    · split <;> simp [mapContainer0, addVolume, setTemplateAnn]

/-- `setupConfig` leaves the pod-template labels untouched. -/
theorem setupConfig_labels (c : Option ConfigRef) (d : Deployment) :
    (setupConfig c d).spec.template.meta.labels = d.spec.template.meta.labels := by
  cases c with
  | none => rfl
  | some conf =>
    simp only [setupConfig]
    split
    · simp [mapContainer0, addVolume]
    · split <;> simp [mapContainer0, addVolume, setTemplateAnn]

/-- `setupConfig` leaves the replica count untouched. -/
theorem setupConfig_replicas (c : Option ConfigRef) (d : Deployment) :
    (setupConfig c d).spec.replicas = d.spec.replicas := by
  cases c with
  | none => rfl
  | some conf =>
    simp only [setupConfig]
    split
    · simp [mapContainer0, addVolume]
    · split <;> simp [mapContainer0, addVolume, setTemplateAnn]

/-- On a present ConfigRef of any kind, `setupConfig` appends exactly
the nginx-config mount to the first container and changes nothing else
about the containers. -/
theorem setupConfig_containers (conf : ConfigRef) (d : Deployment)
    (ct : Container) (rest : List Container)
    (h : d.spec.template.spec.containers = ct :: rest) :
    (setupConfig (some conf) d).spec.template.spec.containers
      = { ct with volumeMounts := ct.volumeMounts ++ [nginxConfigMount] } :: rest := by
  simp only [setupConfig]
  split
  · simp [mapContainer0, addVolume, h, nginxConfigMount]
  · split <;> simp [mapContainer0, addVolume, setTemplateAnn, h, nginxConfigMount]

/-- The ConfigMap-kind branch of `setupConfig` adds exactly the
ConfigMap-sourced volume. -/
theorem setupConfig_configMap_volumes (conf : ConfigRef) (d : Deployment)
    (h : conf.kind = ConfigKindConfigMap) :
    (setupConfig (some conf) d).spec.template.spec.volumes
      = d.spec.template.spec.volumes
        ++ [{ name := "nginx-config", source := .configMap conf.name }] := by
  simp [setupConfig, h, mapContainer0, addVolume]

/-- The inline-kind branch of `setupConfig` adds exactly the
downward-API volume projecting the annotation to nginx.conf. -/
theorem setupConfig_inline_volumes (conf : ConfigRef) (d : Deployment)
    (h : conf.kind = ConfigKindInline) :
    (setupConfig (some conf) d).spec.template.spec.volumes
      = d.spec.template.spec.volumes
        ++ [{ name := "nginx-config"
              source := .downwardAPI
                [{ path := "nginx.conf"
                   fieldPath := "metadata.annotations[" ++ singleQuote ++ conf.name
                     ++ singleQuote ++ "]" }] }] := by
  have hne : ConfigKindInline ≠ ConfigKindConfigMap := by decide
  simp [setupConfig, h, hne, mapContainer0, addVolume, setTemplateAnn]

/-- The inline-kind branch of `setupConfig` stores the inline value as
a pod-template annotation under the ConfigRef name. -/
theorem setupConfig_inline_annotations (conf : ConfigRef) (d : Deployment)
    (h : conf.kind = ConfigKindInline) :
    (setupConfig (some conf) d).spec.template.meta.annotations
      = insertAssoc d.spec.template.meta.annotations conf.name (.str conf.value) := by
  have hne : ConfigKindInline ≠ ConfigKindConfigMap := by decide
  simp [setupConfig, h, hne, mapContainer0, addVolume, setTemplateAnn]

/-- On an unrecognized kind, `setupConfig` adds no volume and no
annotation (while the mount was still appended). -/
theorem setupConfig_other (conf : ConfigRef) (d : Deployment)
    (h1 : conf.kind ≠ ConfigKindConfigMap) (h2 : conf.kind ≠ ConfigKindInline) :
    (setupConfig (some conf) d).spec.template.spec.volumes = d.spec.template.spec.volumes
    ∧ (setupConfig (some conf) d).spec.template.meta.annotations
        = d.spec.template.meta.annotations := by
  constructor <;> simp [setupConfig, h1, h2, mapContainer0]

/-- `setupTLS` on a present secret resolves the secret defaults. -/
theorem setupTLS_fst (s : TLSSecret) (d : Deployment) :
    (setupTLS (some s) d).1 = some (resolveTLS s) := rfl

/-- `setupTLS` leaves the deployment metadata untouched. -/
theorem setupTLS_objectMeta (t : Option TLSSecret) (d : Deployment) :
    (setupTLS t d).2.objectMeta = d.objectMeta := by
  cases t <;> simp [setupTLS, mapContainer0, addVolume]

/-- `setupTLS` leaves the selector untouched. -/
theorem setupTLS_selector (t : Option TLSSecret) (d : Deployment) :
    (setupTLS t d).2.spec.selector = d.spec.selector := by
  cases t <;> simp [setupTLS, mapContainer0, addVolume]

/-- `setupTLS` leaves the pod-template labels untouched. -/
theorem setupTLS_labels (t : Option TLSSecret) (d : Deployment) :
    (setupTLS t d).2.spec.template.meta.labels = d.spec.template.meta.labels := by
  cases t <;> simp [setupTLS, mapContainer0, addVolume]

/-- `setupTLS` leaves the replica count untouched. -/
theorem setupTLS_replicas (t : Option TLSSecret) (d : Deployment) :
    (setupTLS t d).2.spec.replicas = d.spec.replicas := by
  cases t <;> simp [setupTLS, mapContainer0, addVolume]

/-- `setupTLS` leaves the pod-template annotations untouched. -/
theorem setupTLS_annotations2 (t : Option TLSSecret) (d : Deployment) :
    (setupTLS t d).2.spec.template.meta.annotations
      = d.spec.template.meta.annotations := by
  cases t <;> simp [setupTLS, mapContainer0, addVolume]

/-- On a present secret, `setupTLS` rewrites the first container by
appending the https port, replacing the readiness probe with the HTTPS
one, and appending the certs mount. -/
theorem setupTLS_containers (s : TLSSecret) (d : Deployment)
    (ct : Container) (rest : List Container)
    (h : d.spec.template.spec.containers = ct :: rest) :
    (setupTLS (some s) d).2.spec.template.spec.containers
      = { ct with
            ports := ct.ports ++ [httpsContainerPort]
            readinessProbe := some httpsProbeObj
            volumeMounts := ct.volumeMounts ++ [nginxCertsMount] } :: rest := by
  simp [setupTLS, mapContainer0, addVolume, h, httpsContainerPort, httpsProbeObj, nginxCertsMount]

/-- On a present secret, `setupTLS` appends exactly the certs volume
with the resolved key/certificate fields and paths. -/
theorem setupTLS_volumes (s : TLSSecret) (d : Deployment) :
    (setupTLS (some s) d).2.spec.template.spec.volumes
      = d.spec.template.spec.volumes
        ++ [{ name := "nginx-certs"
              source := .secret s.secretName
                [{ key := (resolveTLS s).keyField, path := (resolveTLS s).keyPath },
                 { key := (resolveTLS s).certificateField, path := (resolveTLS s).certificatePath }] }] := by
  simp [setupTLS, mapContainer0, addVolume, resolveTLS]

/-- The ports of the service built by `NewService`: http always, https
exactly when the TLS secret is set. -/
theorem newService_ports (n : Nginx) :
    (NewService n).spec.ports
      = if n.spec.tlsSecret.isSome then [httpServicePort, httpsServicePort]
        else [httpServicePort] := by
  cases h : n.spec.tlsSecret <;>
    simp [NewService, h, httpServicePort, httpsServicePort]

/-- The selector of the service built by `NewService`. -/
theorem newService_selector (n : Nginx) :
    (NewService n).spec.selector = LabelsForNginx n.name := by
  cases h : n.spec.tlsSecret <;> simp [NewService, h]

/-- The resource returned by `NewDeployment` is the input with the image
default applied and the TLS secret defaults resolved. -/
theorem newDeploymentPair_snd (n : Nginx) :
    (newDeploymentPair n).2
      = { n with spec := { n.spec with
            image := valueOrDefault n.spec.image defaultNginxImage
            tlsSecret := Option.map resolveTLS n.spec.tlsSecret } } := by
  cases h : n.spec.tlsSecret <;>
    simp [newDeploymentPair, NewDeployment, SetNginxSpec, h, setupTLS, resolveTLS]

/-- The metadata of the deployment returned by `NewDeployment`: name,
namespace, owner reference, and the generated-from annotation holding
the serialized final spec. -/
theorem newDeploymentPair_fst_objectMeta (n : Nginx) :
    (newDeploymentPair n).1.objectMeta
      = { name := n.name ++ "-deployment"
          ns := n.ns
          ownerReferences := [newControllerRef n]
          labels := []
          annotations := [(generatedFromKey, encodeNginxSpec (newDeploymentPair n).2.spec)] } := by
  simp [newDeploymentPair, NewDeployment, SetNginxSpec, newControllerRef,
    setupConfig_objectMeta, setupTLS_objectMeta, insertAssoc]

/-- The selector of the deployment returned by `NewDeployment`. -/
theorem newDeploymentPair_fst_selector (n : Nginx) :
    (newDeploymentPair n).1.spec.selector = LabelsForNginx n.name := by
  simp [newDeploymentPair, NewDeployment, SetNginxSpec, setupConfig_selector, setupTLS_selector]

/-- The pod-template labels of the deployment returned by
`NewDeployment`. -/
theorem newDeploymentPair_fst_labels (n : Nginx) :
    (newDeploymentPair n).1.spec.template.meta.labels = LabelsForNginx n.name := by
  simp [newDeploymentPair, NewDeployment, SetNginxSpec, setupConfig_labels, setupTLS_labels]

/-- Inversion of a successful `NewDeployment` call. -/
theorem newDeployment_ok_inv (n : Nginx) (d : Deployment) (n2 : Nginx)
    (h : NewDeployment n = .ok (d, n2)) :
    d = (newDeploymentPair n).1 ∧ n2 = (newDeploymentPair n).2 := by
  have h1 : newDeploymentPair n = (d, n2) :=
    Except.ok.inj ((newDeployment_eq n).symm.trans h)
  exact ⟨(congrArg Prod.fst h1).symm, (congrArg Prod.snd h1).symm⟩

/-- A sample spec exercising the inline-config and TLS paths, with
image and TLS fields left empty so every default gets filled. -/
def exSpecA : NginxSpec :=
  { image := ""
    replicas := some 3
    podTemplate := { resources := "limits", affinity := some "zone-affinity" }
    config := some { kind := ConfigKindInline, name := "custom", value := "worker_processes 2;" }
    tlsSecret := some { secretName := "mysecret", keyField := "", certificateField := "",
                        keyPath := "", certificatePath := "" } }

/-- A sample resource built around `exSpecA`. -/
def exNA : Nginx := { name := "my-nginx", ns := "default", uid := "uid-1", spec := exSpecA }

/-- A sample metadata with a pre-existing unrelated annotation. -/
def exMetaA : ObjectMeta := { name := "obj", annotations := [("x", Json.null)] }

/-- C1: extracting the spec from the annotation written by
`SetNginxSpec` recovers exactly the spec that was written; in
particular, `decode (encode (normalize spec)) = normalize spec` for the
normalized spec the builder writes. -/
theorem claim1_roundtrip (o o2 : ObjectMeta) (s : NginxSpec)
    (h : SetNginxSpec o s = .ok o2) : ExtractNginxSpec o2 = .ok s := by
  simp only [SetNginxSpec, Except.ok.injEq] at h
  subst h
  simp [ExtractNginxSpec, lookupAssoc_insertAssoc, decode_encode]

/-- C1 witness: the round trip at a concrete metadata and spec. -/
theorem claim1_roundtrip_witness :
    ExtractNginxSpec { exMetaA with
        annotations := insertAssoc exMetaA.annotations generatedFromKey (encodeNginxSpec exSpecA) }
      = .ok exSpecA :=
  claim1_roundtrip exMetaA _ exSpecA rfl

/-- C4: `NewDeployment` succeeds on every resource: the only fallible
step in the builder is the spec serialization, which cannot fail for a
well-typed spec, and owner-reference construction is total, so no error
is ever returned. -/
theorem claim4_total (n : Nginx) :
    ∃ p : Deployment × Nginx, NewDeployment n = Except.ok p :=
  ⟨newDeploymentPair n, newDeployment_eq n⟩

/-- C5: the deployment pod-template labels, the deployment selector and
the service selector all equal the map with nginx_cr = name and
app = nginx. -/
theorem claim5_labels (n : Nginx) (d : Deployment) (n2 : Nginx)
    (h : NewDeployment n = .ok (d, n2)) :
    d.spec.template.meta.labels = [("nginx_cr", n.name), ("app", "nginx")]
    ∧ d.spec.selector = d.spec.template.meta.labels
    ∧ (NewService n).spec.selector = d.spec.template.meta.labels := by
  obtain ⟨hd, hn⟩ := newDeployment_ok_inv n d n2 h
  subst hd; subst hn
  refine ⟨?_, ?_, ?_⟩
  · rw [newDeploymentPair_fst_labels]; rfl
  · rw [newDeploymentPair_fst_selector, newDeploymentPair_fst_labels]
  · rw [newService_selector, newDeploymentPair_fst_labels]

/-- C5 witness: label/selector consistency at a concrete resource. -/
theorem claim5_labels_witness :
    (newDeploymentPair exNA).1.spec.template.meta.labels
        = [("nginx_cr", exNA.name), ("app", "nginx")]
    ∧ (newDeploymentPair exNA).1.spec.selector
        = (newDeploymentPair exNA).1.spec.template.meta.labels
    ∧ (NewService exNA).spec.selector
        = (newDeploymentPair exNA).1.spec.template.meta.labels :=
  claim5_labels exNA (newDeploymentPair exNA).1 (newDeploymentPair exNA).2
    (newDeployment_eq exNA)

/-- C6: `ExtractNginxSpec` reports a missing annotation and a corrupt
annotation through two distinct error conditions, and the two error
values are never equal, so a caller can tell them apart. -/
theorem claim6_extract_errors (o : ObjectMeta) :
    (lookupAssoc o.annotations generatedFromKey = none →
        ExtractNginxSpec o
          = .error ("missing \"" ++ generatedFromKey ++ "\" annotation in deployment"))
    ∧ (∀ j e, lookupAssoc o.annotations generatedFromKey = some j →
        decodeNginxSpec j = .error e →
        ExtractNginxSpec o
            = .error ("failed to unmarshal nginx from annotation: " ++ e)
          ∧ ("failed to unmarshal nginx from annotation: " ++ e)
              ≠ ("missing \"" ++ generatedFromKey ++ "\" annotation in deployment")) := by
  constructor
  · intro hmiss
    simp [ExtractNginxSpec, hmiss]
  · intro j e hj he
    constructor
    · simp [ExtractNginxSpec, hj, he]
    · intro heq
      have hdata := congrArg String.data heq
      have hlen : ("failed to unmarshal nginx from annotation: ").data.length = 43 := by decide
      have htake := congrArg (List.take 43) hdata
      rw [show ("failed to unmarshal nginx from annotation: " ++ e).data
            = ("failed to unmarshal nginx from annotation: ").data ++ e.data from rfl] at htake
      rw [← hlen, List.take_left] at htake
      revert htake
      decide

/-- A metadata without the generated-from annotation. -/
def exMetaMissing : ObjectMeta := { name := "d1" }

/-- A metadata whose generated-from annotation does not parse as a
spec. -/
def exMetaCorrupt : ObjectMeta :=
  { name := "d2", annotations := [(generatedFromKey, Json.num 1)] }

/-- C6 witness: both error conditions at concrete metadata values. -/
theorem claim6_extract_errors_witness :
    ExtractNginxSpec exMetaMissing
        = .error ("missing \"" ++ generatedFromKey ++ "\" annotation in deployment")
    ∧ ExtractNginxSpec exMetaCorrupt
        = .error ("failed to unmarshal nginx from annotation: "
            ++ "cannot unmarshal value into NginxSpec")
    ∧ ("failed to unmarshal nginx from annotation: "
          ++ "cannot unmarshal value into NginxSpec")
        ≠ ("missing \"" ++ generatedFromKey ++ "\" annotation in deployment") := by
  refine ⟨(claim6_extract_errors exMetaMissing).1 rfl, ?_, ?_⟩
  · exact ((claim6_extract_errors exMetaCorrupt).2 (Json.num 1)
      "cannot unmarshal value into NginxSpec" (by decide) rfl).1
  · exact ((claim6_extract_errors exMetaCorrupt).2 (Json.num 1)
      "cannot unmarshal value into NginxSpec" (by decide) rfl).2

/-- C2: the generated-from annotation of the built deployment decodes
to the final mutated spec, whose image and (when present) TLS fields and
paths are all fully resolved, never empty. -/
theorem claim2_annotation_resolved (n : Nginx) (d : Deployment) (n2 : Nginx)
    (h : NewDeployment n = .ok (d, n2)) :
    ExtractNginxSpec d.objectMeta = .ok n2.spec
    ∧ n2.spec.image ≠ ""
    ∧ (∀ t, n2.spec.tlsSecret = some t →
        t.keyField ≠ "" ∧ t.certificateField ≠ "" ∧ t.keyPath ≠ "" ∧ t.certificatePath ≠ "") := by
  obtain ⟨hd, hn⟩ := newDeployment_ok_inv n d n2 h
  subst hd; subst hn
  refine ⟨?_, ?_, ?_⟩
  · rw [newDeploymentPair_fst_objectMeta]
    simp [ExtractNginxSpec, lookupAssoc, decode_encode]
  · rw [newDeploymentPair_snd]
    show valueOrDefault n.spec.image defaultNginxImage ≠ ""
    exact valueOrDefault_ne_empty _ _ (by decide)
  · intro t ht
    rw [newDeploymentPair_snd] at ht
    cases hx : n.spec.tlsSecret with
    | none => rw [hx] at ht; simp at ht
    | some s =>
      rw [hx] at ht
      simp only [Option.map_some] at ht
      have hts : resolveTLS s = t := by simpa using ht
      subst hts
      refine ⟨?_, ?_, ?_, ?_⟩
      · show valueOrDefault s.keyField "tls.key" ≠ ""
        exact valueOrDefault_ne_empty _ _ (by decide)
      · show valueOrDefault s.certificateField "tls.crt" ≠ ""
        exact valueOrDefault_ne_empty _ _ (by decide)
      · show valueOrDefault s.keyPath (valueOrDefault s.keyField "tls.key") ≠ ""
        exact valueOrDefault_ne_empty _ _ (valueOrDefault_ne_empty _ _ (by decide))
      · show valueOrDefault s.certificatePath (valueOrDefault s.certificateField "tls.crt") ≠ ""
        exact valueOrDefault_ne_empty _ _ (valueOrDefault_ne_empty _ _ (by decide))

/-- C2 witness: the annotation of the deployment built from `exNA`
decodes to its final spec, which is fully resolved. -/
theorem claim2_annotation_resolved_witness :
    ExtractNginxSpec (newDeploymentPair exNA).1.objectMeta
        = .ok (newDeploymentPair exNA).2.spec
    ∧ (newDeploymentPair exNA).2.spec.image ≠ ""
    ∧ (∀ t, (newDeploymentPair exNA).2.spec.tlsSecret = some t →
        t.keyField ≠ "" ∧ t.certificateField ≠ "" ∧ t.keyPath ≠ "" ∧ t.certificatePath ≠ "") :=
  claim2_annotation_resolved exNA (newDeploymentPair exNA).1 (newDeploymentPair exNA).2
    (newDeployment_eq exNA)

/-- C7: normalization fills the image default and the TLS field/path
defaults exactly as specified and leaves non-empty fields unchanged. -/
theorem claim7_defaults (n : Nginx) (d : Deployment) (n2 : Nginx)
    (h : NewDeployment n = .ok (d, n2)) :
    (n.spec.image = "" → n2.spec.image = defaultNginxImage)
    ∧ (n.spec.image ≠ "" → n2.spec.image = n.spec.image)
    ∧ (∀ sn, n.spec.tlsSecret
          = some { secretName := sn, keyField := "", certificateField := "",
                   keyPath := "", certificatePath := "" } →
        n2.spec.tlsSecret
          = some { secretName := sn, keyField := "tls.key", certificateField := "tls.crt",
                   keyPath := "tls.key", certificatePath := "tls.crt" })
    ∧ (∀ t, n.spec.tlsSecret = some t →
        n2.spec.tlsSecret = some (resolveTLS t)
        ∧ (t.keyField ≠ "" → (resolveTLS t).keyField = t.keyField)
        ∧ (t.certificateField ≠ "" → (resolveTLS t).certificateField = t.certificateField)
        ∧ (t.keyPath ≠ "" → (resolveTLS t).keyPath = t.keyPath)
        ∧ (t.certificatePath ≠ "" → (resolveTLS t).certificatePath = t.certificatePath)) := by
  obtain ⟨hd, hn⟩ := newDeployment_ok_inv n d n2 h
  subst hd; subst hn
  rw [newDeploymentPair_snd]
  refine ⟨?_, ?_, ?_, ?_⟩
  · intro hi
    simp [hi, valueOrDefault]
  · intro hi
    simp [valueOrDefault, hi]
  · intro sn hsn
    rw [hsn]
    simp [resolveTLS, valueOrDefault]
  · intro t ht
    rw [ht]
    refine ⟨by simp, ?_, ?_, ?_, ?_⟩
    · intro hne
      show valueOrDefault t.keyField "tls.key" = t.keyField
      simp [valueOrDefault, hne]
    · intro hne
      show valueOrDefault t.certificateField "tls.crt" = t.certificateField
      simp [valueOrDefault, hne]
    · intro hne
      show valueOrDefault t.keyPath (valueOrDefault t.keyField "tls.key") = t.keyPath
      simp [valueOrDefault, hne]
    · intro hne
      show valueOrDefault t.certificatePath (valueOrDefault t.certificateField "tls.crt") = t.certificatePath
      simp [valueOrDefault, hne]

/-- C7 witness: the defaults at the concrete resource `exNA`. -/
theorem claim7_defaults_witness :
    (exNA.spec.image = "" → (newDeploymentPair exNA).2.spec.image = defaultNginxImage)
    ∧ (exNA.spec.image ≠ "" → (newDeploymentPair exNA).2.spec.image = exNA.spec.image)
    ∧ (∀ sn, exNA.spec.tlsSecret
          = some { secretName := sn, keyField := "", certificateField := "",
                   keyPath := "", certificatePath := "" } →
        (newDeploymentPair exNA).2.spec.tlsSecret
          = some { secretName := sn, keyField := "tls.key", certificateField := "tls.crt",
                   keyPath := "tls.key", certificatePath := "tls.crt" })
    ∧ (∀ t, exNA.spec.tlsSecret = some t →
        (newDeploymentPair exNA).2.spec.tlsSecret = some (resolveTLS t)
        ∧ (t.keyField ≠ "" → (resolveTLS t).keyField = t.keyField)
        ∧ (t.certificateField ≠ "" → (resolveTLS t).certificateField = t.certificateField)
        ∧ (t.keyPath ≠ "" → (resolveTLS t).keyPath = t.keyPath)
        ∧ (t.certificatePath ≠ "" → (resolveTLS t).certificatePath = t.certificatePath)) :=
  claim7_defaults exNA (newDeploymentPair exNA).1 (newDeploymentPair exNA).2
    (newDeployment_eq exNA)

/-- The single container of the deployment built by `NewDeployment`,
across all four config/TLS configurations. -/
theorem newDeploymentPair_fst_containers (n : Nginx) :
    (newDeploymentPair n).1.spec.template.spec.containers
      = [{ name := "nginx"
           image := valueOrDefault n.spec.image defaultNginxImage
           ports := httpContainerPort
             :: (if n.spec.tlsSecret.isSome then [httpsContainerPort] else [])
           resources := n.spec.podTemplate.resources
           readinessProbe := some (if n.spec.tlsSecret.isSome then httpsProbeObj else httpProbeObj)
           volumeMounts := (if n.spec.config.isSome then [nginxConfigMount] else [])
             ++ (if n.spec.tlsSecret.isSome then [nginxCertsMount] else []) }] := by
  cases hc : n.spec.config with
  | none =>
    cases ht : n.spec.tlsSecret with
    | none =>
      simp [newDeploymentPair, NewDeployment, SetNginxSpec, hc, ht, setupConfig, setupTLS,
        httpContainerPort, httpProbeObj]
    | some s =>
      simp [newDeploymentPair, NewDeployment, SetNginxSpec, hc, ht, setupConfig, setupTLS,
        mapContainer0, addVolume, httpContainerPort, httpsContainerPort, httpProbeObj,
        httpsProbeObj, nginxCertsMount]
  | some conf =>
    cases ht : n.spec.tlsSecret with
    | none =>
      simp only [newDeploymentPair, NewDeployment, SetNginxSpec, hc, ht, setupTLS]
      rw [setupConfig_containers _ _ _ _ rfl]
      simp [httpContainerPort, httpProbeObj, nginxConfigMount]
    | some s =>
      simp only [newDeploymentPair, NewDeployment, SetNginxSpec, hc, ht]
      rw [setupTLS_containers _ _ _ _ (setupConfig_containers _ _ _ _ rfl)]
      simp [httpContainerPort, httpsContainerPort, httpProbeObj, httpsProbeObj,
        nginxConfigMount, nginxCertsMount]

/-- C3: the service has the https (443) port exactly when the TLS
secret reference is set, and the deployment has exactly one container
with a single readiness probe, which targets the https port and scheme
when TLS is set (replacing the HTTP probe) and the http port
otherwise. -/
theorem claim3_tls_invariant (n : Nginx) (d : Deployment) (n2 : Nginx)
    (h : NewDeployment n = .ok (d, n2)) :
    (NewService n).spec.ports
      = (if n.spec.tlsSecret.isSome then [httpServicePort, httpsServicePort]
         else [httpServicePort])
    ∧ ∃ ct : Container, d.spec.template.spec.containers = [ct]
        ∧ ct.readinessProbe
            = some (if n.spec.tlsSecret.isSome then httpsProbeObj else httpProbeObj) := by
  obtain ⟨hd, hn⟩ := newDeployment_ok_inv n d n2 h
  subst hd; subst hn
  exact ⟨newService_ports n, ⟨_, newDeploymentPair_fst_containers n, rfl⟩⟩

/-- C3 witness: the TLS-presence invariant at the concrete resource
`exNA`, which sets a TLS secret. -/
theorem claim3_tls_invariant_witness :
    (NewService exNA).spec.ports
      = (if exNA.spec.tlsSecret.isSome then [httpServicePort, httpsServicePort]
         else [httpServicePort])
    ∧ ∃ ct : Container, (newDeploymentPair exNA).1.spec.template.spec.containers = [ct]
        ∧ ct.readinessProbe
            = some (if exNA.spec.tlsSecret.isSome then httpsProbeObj else httpProbeObj) :=
  claim3_tls_invariant exNA (newDeploymentPair exNA).1 (newDeploymentPair exNA).2
    (newDeployment_eq exNA)

/-- C8: on any present ConfigRef, `setupConfig` appends the
nginx-config mount to the container regardless of the kind, and on an
unrecognized kind it adds no volume and no annotation (and, having no
error return, reports nothing). -/
theorem claim8_config_mount (conf : ConfigRef) (d : Deployment)
    (ct : Container) (rest : List Container)
    (h : d.spec.template.spec.containers = ct :: rest) :
    (setupConfig (some conf) d).spec.template.spec.containers
        = { ct with volumeMounts := ct.volumeMounts ++ [nginxConfigMount] } :: rest
    ∧ (conf.kind ≠ ConfigKindConfigMap → conf.kind ≠ ConfigKindInline →
        (setupConfig (some conf) d).spec.template.spec.volumes = d.spec.template.spec.volumes
        ∧ (setupConfig (some conf) d).spec.template.meta.annotations
            = d.spec.template.meta.annotations) := by
  refine ⟨setupConfig_containers conf d ct rest h, ?_⟩
  intro h1 h2
  exact setupConfig_other conf d h1 h2

/-- A sample container as built by `NewDeployment`. -/
def exContainer : Container :=
  { name := "nginx", image := "nginx:latest", ports := [httpContainerPort],
    resources := "", readinessProbe := some httpProbeObj, volumeMounts := [] }

/-- A sample deployment with a single container and no volumes. -/
def exDep : Deployment :=
  { kind := "Deployment", apiVersion := "apps/v1", objectMeta := {},
    spec := { replicas := none, selector := [],
              template := { meta := {},
                            spec := { containers := [exContainer], volumes := [],
                                      affinity := none } } } }

/-- A ConfigRef whose kind is neither ConfigMap nor Inline. -/
def exConfUnknown : ConfigRef := { kind := "Mystery", name := "c", value := "v" }

/-- C8 witness: the mount is appended and no volume added for a
concrete unrecognized-kind ConfigRef. -/
theorem claim8_config_mount_witness :
    (setupConfig (some exConfUnknown) exDep).spec.template.spec.containers
        = { exContainer with
              volumeMounts := exContainer.volumeMounts ++ [nginxConfigMount] } :: []
    ∧ (exConfUnknown.kind ≠ ConfigKindConfigMap → exConfUnknown.kind ≠ ConfigKindInline →
        (setupConfig (some exConfUnknown) exDep).spec.template.spec.volumes
            = exDep.spec.template.spec.volumes
        ∧ (setupConfig (some exConfUnknown) exDep).spec.template.meta.annotations
            = exDep.spec.template.meta.annotations) :=
  claim8_config_mount exConfUnknown exDep exContainer [] rfl

/-- C10: with an inline ConfigRef, the pod template carries the inline
value as an annotation under the ConfigRef name, and the nginx-config
volume is a downward-API projection of exactly that annotation into a
file named nginx.conf. -/
theorem claim10_inline (n : Nginx) (d : Deployment) (n2 : Nginx) (N V : String)
    (hc : n.spec.config = some { kind := ConfigKindInline, name := N, value := V })
    (h : NewDeployment n = .ok (d, n2)) :
    lookupAssoc d.spec.template.meta.annotations N = some (.str V)
    ∧ d.spec.template.spec.volumes.head?
        = some { name := "nginx-config"
                 source := .downwardAPI
                   [{ path := "nginx.conf"
                      fieldPath := "metadata.annotations[" ++ singleQuote ++ N
                        ++ singleQuote ++ "]" }] } := by
  obtain ⟨hd, hn⟩ := newDeployment_ok_inv n d n2 h
  subst hd; subst hn
  constructor
  · simp only [newDeploymentPair, NewDeployment, SetNginxSpec, hc]
    rw [setupTLS_annotations2, setupConfig_inline_annotations _ _ rfl]
    simp [insertAssoc, lookupAssoc]
  · simp only [newDeploymentPair, NewDeployment, SetNginxSpec, hc]
    cases ht : n.spec.tlsSecret with
    | none =>
      simp only [setupTLS]
      rw [setupConfig_inline_volumes _ _ rfl]
      simp
    | some s =>
      rw [setupTLS_volumes, setupConfig_inline_volumes _ _ rfl]
      simp

/-- C10 witness: the inline annotation and projection volume at the
concrete resource `exNA`. -/
theorem claim10_inline_witness :
    lookupAssoc (newDeploymentPair exNA).1.spec.template.meta.annotations "custom"
        = some (.str "worker_processes 2;")
    ∧ (newDeploymentPair exNA).1.spec.template.spec.volumes.head?
        = some { name := "nginx-config"
                 source := .downwardAPI
                   [{ path := "nginx.conf"
                      fieldPath := "metadata.annotations[" ++ singleQuote ++ "custom"
                        ++ singleQuote ++ "]" }] } :=
  claim10_inline exNA (newDeploymentPair exNA).1 (newDeploymentPair exNA).2
    "custom" "worker_processes 2;" rfl (newDeployment_eq exNA)

/-- Rebuilding from the mutated resource reproduces the same outputs:
the normalization performed by `NewDeployment` is a fixpoint after one
application. -/
theorem newDeploymentPair_idem (n : Nginx) :
    newDeploymentPair (newDeploymentPair n).2 = newDeploymentPair n := by
  rw [newDeploymentPair_snd]
  obtain ⟨nm, nns, nuid, ⟨i, r, pt, cfg, tls⟩⟩ := n
  cases tls <;>
    simp [newDeploymentPair, NewDeployment, SetNginxSpec, setupTLS, resolveTLS,
      newControllerRef, mapContainer0, addVolume, valueOrDefault_idem]

/-- C9: reconciling a second time on the resource mutated by the first
call yields the identical deployment and service. -/
theorem claim9_idempotent (n : Nginx) (d : Deployment) (n2 : Nginx)
    (h : NewDeployment n = .ok (d, n2)) :
    NewDeployment n2 = .ok (d, n2) ∧ NewService n2 = NewService n := by
  obtain ⟨hd, hn⟩ := newDeployment_ok_inv n d n2 h
  subst hd; subst hn
  constructor
  · rw [newDeployment_eq, newDeploymentPair_idem]
  · rw [newDeploymentPair_snd]
    cases ht : n.spec.tlsSecret <;> simp [NewService, newControllerRef, ht]

/-- C9 witness: idempotence at the concrete resource `exNA`. -/
theorem claim9_idempotent_witness :
    NewDeployment (newDeploymentPair exNA).2
        = .ok ((newDeploymentPair exNA).1, (newDeploymentPair exNA).2)
    ∧ NewService (newDeploymentPair exNA).2 = NewService exNA :=
  claim9_idempotent exNA (newDeploymentPair exNA).1 (newDeploymentPair exNA).2
    (newDeployment_eq exNA)
